import Mathlib

/-!
Verification of the marksense proof service (src/index.ts): a shallow
embedding of its cache, signing, proof-requesting and HTTP handler logic,
with theorems checking the natural-language specification against it.

The cryptographic primitives invoked through Node's `crypto` module
(`createHash('md5')`, `createHmac('sha256', ...)`) are embedded as the
standard MD5 and HMAC-SHA-256 algorithms over byte lists (`Nat`s below 256),
so every definition is executable.
-/

namespace MarkSense

/-! ## 32-bit word arithmetic (Nat with explicit mod 2^32) -/

def w32 : Nat := 4294967296

def add32 (a b : Nat) : Nat := (a + b) % w32

def rotl32 (x n : Nat) : Nat := ((x <<< n) ||| (x >>> (32 - n))) % w32

def rotr32 (x n : Nat) : Nat := ((x >>> n) ||| (x <<< (32 - n))) % w32

def not32 (x : Nat) : Nat := x ^^^ 4294967295

/-! ## UTF-8 encoding of strings (Node `Buffer.from(s, 'utf8')`) -/

def charUtf8 (c : Char) : List Nat :=
  let n := c.toNat
  if n < 128 then [n]
  else if n < 2048 then [192 ||| (n >>> 6), 128 ||| (n &&& 63)]
  else if n < 65536 then
    [224 ||| (n >>> 12), 128 ||| ((n >>> 6) &&& 63), 128 ||| (n &&& 63)]
  else
    [240 ||| (n >>> 18), 128 ||| ((n >>> 12) &&& 63),
     128 ||| ((n >>> 6) &&& 63), 128 ||| (n &&& 63)]

def utf8Bytes (s : String) : List Nat := s.data.flatMap charUtf8

/-! ## MD5 (crypto.createHash('md5')) -/

def md5K : List Nat :=
  [3614090360, 3905402710, 606105819, 3250441966, 4118548399, 1200080426, 2821735955, 4249261313,
   1770035416, 2336552879, 4294925233, 2304563134, 1804603682, 4254626195, 2792965006, 1236535329,
   4129170786, 3225465664, 643717713, 3921069994, 3593408605, 38016083, 3634488961, 3889429448,
   568446438, 3275163606, 4107603335, 1163531501, 2850285829, 4243563512, 1735328473, 2368359562,
   4294588738, 2272392833, 1839030562, 4259657740, 2763975236, 1272893353, 4139469664, 3200236656,
   681279174, 3936430074, 3572445317, 76029189, 3654602809, 3873151461, 530742520, 3299628645,
   4096336452, 1126891415, 2878612391, 4237533241, 1700485571, 2399980690, 4293915773, 2240044497,
   1873313359, 4264355552, 2734768916, 1309151649, 4149444226, 3174756917, 718787259, 3951481745]

def md5S : List Nat :=
  [7, 12, 17, 22, 7, 12, 17, 22, 7, 12, 17, 22, 7, 12, 17, 22,
   5, 9, 14, 20, 5, 9, 14, 20, 5, 9, 14, 20, 5, 9, 14, 20,
   4, 11, 16, 23, 4, 11, 16, 23, 4, 11, 16, 23, 4, 11, 16, 23,
   6, 10, 15, 21, 6, 10, 15, 21, 6, 10, 15, 21, 6, 10, 15, 21]

structure MD5State where
  a : Nat
  b : Nat
  c : Nat
  d : Nat
deriving DecidableEq, Repr

def md5Init : MD5State := ⟨1732584193, 4023233417, 2562383102, 271733878⟩

/-- Little-endian 32-bit words from a byte list (groups of 4). -/
def toWordsLE : List Nat → List Nat
  | b0 :: b1 :: b2 :: b3 :: rest =>
      (b0 + b1 * 256 + b2 * 65536 + b3 * 16777216) :: toWordsLE rest
  | _ => []

/-- 8 little-endian bytes of a number (for the MD5 length block). -/
def leBytes8 (n : Nat) : List Nat :=
  [n % 256, n / 256 % 256, n / 65536 % 256, n / 16777216 % 256,
   n / 4294967296 % 256, n / 1099511627776 % 256,
   n / 281474976710656 % 256, n / 72057594037927936 % 256]

def md5F (i b c d : Nat) : Nat :=
  if i < 16 then (b &&& c) ||| (not32 b &&& d)
  else if i < 32 then (d &&& b) ||| (not32 d &&& c)
  else if i < 48 then b ^^^ c ^^^ d
  else c ^^^ (b ||| not32 d)

def md5G (i : Nat) : Nat :=
  if i < 16 then i
  else if i < 32 then (5 * i + 1) % 16
  else if i < 48 then (3 * i + 5) % 16
  else (7 * i) % 16

def md5Step (m : List Nat) (st : MD5State) (i : Nat) : MD5State :=
  let f := md5F i st.b st.c st.d
  let rot := rotl32 (add32 (add32 st.a f)
                        (add32 (md5K.getD i 0) (m.getD (md5G i) 0)))
                    (md5S.getD i 0)
  ⟨st.d, add32 st.b rot, st.b, st.c⟩

def md5Compress (st : MD5State) (chunk : List Nat) : MD5State :=
  let m := toWordsLE chunk
  let r := (List.range 64).foldl (md5Step m) st
  ⟨add32 st.a r.a, add32 st.b r.b, add32 st.c r.c, add32 st.d r.d⟩

def md5Pad (msg : List Nat) : List Nat :=
  let padZeros := (119 - msg.length % 64) % 64
  msg ++ [128] ++ List.replicate padZeros 0 ++ leBytes8 (msg.length * 8)

/-- Process 64-byte chunks; `fuel` bounds the recursion (any fuel at least the
number of chunks computes the full digest state). -/
def md5Chunks : Nat → MD5State → List Nat → MD5State
  | 0, st, _ => st
  | _, st, [] => st
  | fuel + 1, st, b :: rest =>
      md5Chunks fuel (md5Compress st (List.take 64 (b :: rest))) (List.drop 64 (b :: rest))

/-- 4 little-endian bytes of a 32-bit word. -/
def leBytes4 (n : Nat) : List Nat :=
  [n % 256, n / 256 % 256, n / 65536 % 256, n / 16777216 % 256]

def md5Bytes (msg : List Nat) : List Nat :=
  let padded := md5Pad msg
  let r := md5Chunks padded.length md5Init padded
  leBytes4 r.a ++ leBytes4 r.b ++ leBytes4 r.c ++ leBytes4 r.d

/-! ## Hex encoding (Node .digest('hex'): lowercase hex) -/

def hexDigit (n : Nat) : Char :=
  match n with
  | 0 => '0' | 1 => '1' | 2 => '2' | 3 => '3'
  | 4 => '4' | 5 => '5' | 6 => '6' | 7 => '7'
  | 8 => '8' | 9 => '9' | 10 => 'a' | 11 => 'b'
  | 12 => 'c' | 13 => 'd' | 14 => 'e' | _ => 'f'

def hexChars (bs : List Nat) : List Char :=
  bs.flatMap (fun b => [hexDigit (b / 16 % 16), hexDigit (b % 16)])

def hexOfBytes (bs : List Nat) : String :=
  String.mk (hexChars bs)

/-- `crypto.createHash('md5').update(s).digest('hex')` -/
def md5hex (s : String) : String := hexOfBytes (md5Bytes (utf8Bytes s))

/-! ## SHA-256 (for crypto.createHmac('sha256')) -/

def sha256K : List Nat :=
  [1116352408, 1899447441, 3049323471, 3921009573, 961987163, 1508970993, 2453635748, 2870763221,
   3624381080, 310598401, 607225278, 1426881987, 1925078388, 2162078206, 2614888103, 3248222580,
   3835390401, 4022224774, 264347078, 604807628, 770255983, 1249150122, 1555081692, 1996064986,
   2554220882, 2821834349, 2952996808, 3210313671, 3336571891, 3584528711, 113926993, 338241895,
   666307205, 773529912, 1294757372, 1396182291, 1695183700, 1986661051, 2177026350, 2456956037,
   2730485921, 2820302411, 3259730800, 3345764771, 3516065817, 3600352804, 4094571909, 275423344,
   430227734, 506948616, 659060556, 883997877, 958139571, 1322822218, 1537002063, 1747873779,
   1955562222, 2024104815, 2227730452, 2361852424, 2428436474, 2756734187, 3204031479, 3329325298]

structure SHA256State where
  h0 : Nat
  h1 : Nat
  h2 : Nat
  h3 : Nat
  h4 : Nat
  h5 : Nat
  h6 : Nat
  h7 : Nat
deriving DecidableEq, Repr

def sha256Init : SHA256State :=
  ⟨1779033703, 3144134277, 1013904242, 2773480762, 1359893119, 2600822924, 528734635, 1541459225⟩

/-- Big-endian 32-bit words from a byte list (groups of 4). -/
def toWordsBE : List Nat → List Nat
  | b0 :: b1 :: b2 :: b3 :: rest =>
      (b0 * 16777216 + b1 * 65536 + b2 * 256 + b3) :: toWordsBE rest
  | _ => []

/-- 8 big-endian bytes of a number (for the SHA-256 length block). -/
def beBytes8 (n : Nat) : List Nat :=
  [n / 72057594037927936 % 256, n / 281474976710656 % 256,
   n / 1099511627776 % 256, n / 4294967296 % 256,
   n / 16777216 % 256, n / 65536 % 256, n / 256 % 256, n % 256]

def beBytes4 (n : Nat) : List Nat :=
  [n / 16777216 % 256, n / 65536 % 256, n / 256 % 256, n % 256]

def sha256SmallSigma0 (x : Nat) : Nat := rotr32 x 7 ^^^ rotr32 x 18 ^^^ (x >>> 3)

def sha256SmallSigma1 (x : Nat) : Nat := rotr32 x 17 ^^^ rotr32 x 19 ^^^ (x >>> 10)

def sha256BigSigma0 (x : Nat) : Nat := rotr32 x 2 ^^^ rotr32 x 13 ^^^ rotr32 x 22

def sha256BigSigma1 (x : Nat) : Nat := rotr32 x 6 ^^^ rotr32 x 11 ^^^ rotr32 x 25

/-- Message schedule: extend the 16 chunk words to 64. -/
def sha256Schedule (w16 : List Nat) : List Nat :=
  (List.range 48).foldl
    (fun w _ =>
      let i := w.length
      w ++ [(sha256SmallSigma1 (w.getD (i - 2) 0) + w.getD (i - 7) 0 +
             sha256SmallSigma0 (w.getD (i - 15) 0) + w.getD (i - 16) 0) % w32])
    w16

def sha256Round (w : List Nat) (r : Nat × Nat × Nat × Nat × Nat × Nat × Nat × Nat) (i : Nat) :
    Nat × Nat × Nat × Nat × Nat × Nat × Nat × Nat :=
  match r with
  | (a, b, c, d, e, f, g, h) =>
    let t1 := (h + sha256BigSigma1 e + ((e &&& f) ^^^ (not32 e &&& g)) +
               sha256K.getD i 0 + w.getD i 0) % w32
    let t2 := (sha256BigSigma0 a + ((a &&& b) ^^^ (a &&& c) ^^^ (b &&& c))) % w32
    (add32 t1 t2, a, b, c, add32 d t1, e, f, g)

def sha256Compress (st : SHA256State) (chunk : List Nat) : SHA256State :=
  let w := sha256Schedule (toWordsBE chunk)
  let r := (List.range 64).foldl (sha256Round w)
    (st.h0, st.h1, st.h2, st.h3, st.h4, st.h5, st.h6, st.h7)
  match r with
  | (a, b, c, d, e, f, g, h) =>
    ⟨add32 st.h0 a, add32 st.h1 b, add32 st.h2 c, add32 st.h3 d,
     add32 st.h4 e, add32 st.h5 f, add32 st.h6 g, add32 st.h7 h⟩

def sha256Pad (msg : List Nat) : List Nat :=
  let padZeros := (119 - msg.length % 64) % 64
  msg ++ [128] ++ List.replicate padZeros 0 ++ beBytes8 (msg.length * 8)

/-- Process 64-byte chunks; `fuel` bounds the recursion (any fuel at least the
number of chunks computes the full digest state). -/
def sha256Chunks : Nat → SHA256State → List Nat → SHA256State
  | 0, st, _ => st
  | _, st, [] => st
  | fuel + 1, st, b :: rest =>
      sha256Chunks fuel (sha256Compress st (List.take 64 (b :: rest))) (List.drop 64 (b :: rest))

def sha256Bytes (msg : List Nat) : List Nat :=
  let padded := sha256Pad msg
  let r := sha256Chunks padded.length sha256Init padded
  beBytes4 r.h0 ++ beBytes4 r.h1 ++ beBytes4 r.h2 ++ beBytes4 r.h3 ++
  beBytes4 r.h4 ++ beBytes4 r.h5 ++ beBytes4 r.h6 ++ beBytes4 r.h7

/-! ## HMAC-SHA256 (crypto.createHmac('sha256', secret).update(msg)) -/

def hmacSha256 (key msg : List Nat) : List Nat :=
  let k0 := if 64 < key.length then sha256Bytes key else key
  let k := k0 ++ List.replicate (64 - k0.length) 0
  let ipad := k.map (fun b => b ^^^ 54)
  let opad := k.map (fun b => b ^^^ 92)
  sha256Bytes (opad ++ sha256Bytes (ipad ++ msg))

/-! ## Signer and cache key (src/index.ts lines 41-66) -/

/-- `createSignature(queryString, secret)`:
`crypto.createHmac('sha256', secret).update(queryString).digest('hex')`. -/
def createSignature (queryString : String) (secret : String) : String :=
  hexOfBytes (hmacSha256 (utf8Bytes secret) (utf8Bytes queryString))

/-- `generateCacheKey(apiKey, symbol, orderId)`:
`md5("" + apiKey + symbol + orderId)` in hex, plus the `.json` suffix. -/
def generateCacheKey (apiKey : String) (symbol : String) (orderId : String) : String :=
  md5hex ("" ++ apiKey ++ symbol ++ orderId) ++ ".json"

/-! ## Cache store (src/index.ts lines 35-61)

The on-disk cache directory is modelled as a map from file name to the raw
stored blob; a blob is either a well-formed serialization of
`{data, cachedAt}` (what `writeCache` produces) or malformed bytes on which
`JSON.parse` throws. -/

structure CacheEntry (D : Type) where
  data : D
  cachedAt : Nat
deriving DecidableEq, Repr

inductive CacheBlob (D : Type) where
  | wellFormed (entry : CacheEntry D)
  | malformed (raw : String)
deriving DecidableEq, Repr

def CacheBlob.isMalformed {D : Type} : CacheBlob D → Bool
  | .malformed _ => true
  | .wellFormed _ => false

def CacheState (D : Type) : Type := String → Option (CacheBlob D)

/-- The message of the exception `JSON.parse` throws on a malformed blob. -/
def jsonParseError (raw : String) : String := "Unexpected token in JSON: " ++ raw

/-- `readCache(cacheFile)`: `null` when the file is absent, the parsed entry
when present and well-formed, and a thrown exception (`.error`) when present
but malformed. -/
def readCache {D : Type} (cache : CacheState D) (cacheFile : String) :
    Except String (Option (CacheEntry D)) :=
  match cache cacheFile with
  | none => .ok none
  | some (.wellFormed entry) => .ok (some entry)
  | some (.malformed raw) => .error (jsonParseError raw)

/-- `writeCache(cacheFile, data)`: stores `{data, cachedAt: Date.now()}`,
overwriting any prior blob under that file name. -/
def writeCache {D : Type} (cache : CacheState D) (cacheFile : String) (data : D) (now : Nat) :
    CacheState D :=
  fun k => if k = cacheFile then some (.wellFormed ⟨data, now⟩) else cache k

/-! ## Proof requester (src/index.ts lines 68-165)

The Reclaim client, its verifier and the on-chain transformer are external
black boxes; they are modelled as function fields of an environment. A call
that throws is an `Except.error` carrying the stringified error message
(the source's `err instanceof Error ? err.message : String(err)`), and
`zkFetch` resolving to `null`/`undefined` is `Except.ok none`. -/

structure ResponseMatch where
  type : String
  value : String
deriving DecidableEq, Repr

structure SecretOptions where
  headers : List (String × String)
  responseMatches : Option (List ResponseMatch)
deriving DecidableEq, Repr

/-- The full argument list of one `reclaimClient.zkFetch(...)` invocation. -/
structure ZkFetchCall where
  url : String
  method : String
  secretOptions : Option SecretOptions
  retries : Option Nat
  delayMs : Option Nat
deriving DecidableEq, Repr

/-- The source's `Result<T> = Success<T> | Failure` union. -/
inductive Result (D : Type) where
  | success (data : D)
  | failure (error : String)
deriving DecidableEq, Repr

def Result.isSuccess {D : Type} : Result D → Bool
  | .success _ => true
  | .failure _ => false

/-- The `data` payload `{ transformedProof, proof }` of a successful result. -/
structure ProofData (P T : Type) where
  transformedProof : T
  proof : P
deriving DecidableEq, Repr

/-- External world of one request: the Reclaim client (`zkFetch`,
`verifySignedProof`, `transformForOnchain`), `Date.now()`, the Binance
server-time fetch, plain `axios.get`, and the process-env credentials. -/
structure Env (P T : Type) where
  zkFetch : ZkFetchCall → Except String (Option P)
  verifySignedProof : P → Except String Bool
  transformForOnchain : P → Except String T
  now : Nat
  serverTime : Except String Nat
  httpGet : String → Except String String
  envApiKey : String
  envApiSecret : String

def exceptIsOk {ε α : Type} : Except ε α → Bool
  | .ok _ => true
  | .error _ => false

/-- The shared tail of `generateProof`, `generateProofWithoutContext` and the
`/debugproxy` handler body (textually identical in the source): null-check the
fetched proof, verify its signature, transform it for on-chain use, catching
any thrown error as a `Failure` with the stringified message. -/
def proofFlow {P T : Type} (env : Env P T) (fetched : Except String (Option P)) :
    Result (ProofData P T) :=
  match fetched with
  | .error e => .failure e
  | .ok none => .failure "Failed to generate proof"
  | .ok (some proof) =>
    match env.verifySignedProof proof with
    | .error e => .failure e
    | .ok false => .failure "Proof is invalid"
    | .ok true =>
      match env.transformForOnchain proof with
      | .error e => .failure e
      | .ok proofData => .success ⟨proofData, proof⟩

/-- The `zkFetch` invocation `generateProof` performs: GET, the API-key
header, the supplied response matches, and retry parameters `3, 5000`. -/
def proofRequestCall (url : String) (respMatches : List ResponseMatch) (apiKey : String) :
    ZkFetchCall :=
  { url := url, method := "GET",
    secretOptions := some { headers := [("X-MBX-APIKEY", apiKey)], responseMatches := some respMatches },
    retries := some 3, delayMs := some 5000 }

/-- `generateProof(url, matches, apiKey)` (lines 68-117); also returns the
list of `zkFetch` invocations it performed, for observability. -/
def generateProof {P T : Type} (env : Env P T) (url : String) (respMatches : List ResponseMatch)
    (apiKey : String) : Result (ProofData P T) × List ZkFetchCall :=
  let call := proofRequestCall url respMatches apiKey
  (proofFlow env (env.zkFetch call), [call])

/-- The `zkFetch` invocation `generateProofWithoutContext` performs: GET,
the API-key header, no response matches, no retry parameters. -/
def noContextCall (url : String) (apiKey : String) : ZkFetchCall :=
  { url := url, method := "GET",
    secretOptions := some { headers := [("X-MBX-APIKEY", apiKey)], responseMatches := none },
    retries := none, delayMs := none }

/-- `generateProofWithoutContext(url, apiKey)` (lines 119-165). -/
def generateProofWithoutContext {P T : Type} (env : Env P T) (url : String) (apiKey : String) :
    Result (ProofData P T) × List ZkFetchCall :=
  let call := noContextCall url apiKey
  (proofFlow env (env.zkFetch call), [call])

/-! ## HTTP facade (src/index.ts lines 167-325) -/

inductive RespBody (P T : Type) where
  | json (d : ProofData P T)
  | text (s : String)
deriving DecidableEq, Repr

/-- What a handler invocation does towards the client: send an HTTP response,
finish with only a returned value (no response sent), or let an exception
escape the handler uncaught. -/
inductive Outcome (P T A : Type) where
  | response (status : Nat) (body : RespBody P T)
  | returned (v : A)
  | uncaught (err : String)
deriving DecidableEq, Repr

def Outcome.isHttpResponse {P T A : Type} : Outcome P T A → Bool
  | .response _ _ => true
  | .returned _ => false
  | .uncaught _ => false

/-- `let servTime = Date.now(); try { servTime = serverTime fetch } catch {}`
(trade-proof handler, lines 215-223). -/
def effectiveServerTime (serverTime : Except String Nat) (now : Nat) : Nat :=
  match serverTime with
  | .ok t => t
  | .error _ => now

def rootQueryString (timestamp : Nat) (symbol : String) : String :=
  "timestamp=" ++ toString timestamp ++ "&symbol=" ++ symbol ++ "&recvWindow=60000"

def tradeQueryString (timestamp : Nat) (symbol : String) (orderId : String) : String :=
  "timestamp=" ++ toString timestamp ++ "&symbol=" ++ symbol ++ "&orderId=" ++ orderId ++
    "&recvWindow=60000"

def assetQueryString (timestamp : Nat) : String :=
  "timestamp=" ++ toString timestamp

/-- `https://…${endpoint}?${queryString}&signature=${signature}`: the
signature is computed over exactly `queryString` and appended after it. -/
def signedUrl (base : String) (endpoint : String) (queryString : String) (secret : String) :
    String :=
  base ++ endpoint ++ "?" ++ queryString ++ "&signature=" ++ createSignature queryString secret

def tradeMatches : List ResponseMatch :=
  [⟨"regex", "\"orderId\":\\s*(?<orderId>[\\d.]+)"⟩]

def assetMatches (asset : String) : List ResponseMatch :=
  [⟨"regex", "\"asset\":\\s*\"" ++ asset ++ "\",\\s*\"free\":\\s*\"(?<amount>[\\d.]+)\""⟩]

/-- Body of `POST /generateUSDMTradeProof`. -/
structure TradeProofBody where
  api_key : String
  api_secret : String
  symbol : String
  order_id : String
deriving DecidableEq, Repr

/-- `GET /` (lines 167-201): fetch server time (500 on failure), build the
signed trades URL with the process-env secret, forward via axios and render
(200), or 500 on upstream failure. Makes no `zkFetch` call; the last
component records the axios URLs requested, for observability. -/
def rootTrades {P T : Type} (env : Env P T) (symbol : String) :
    Outcome P T Unit × List ZkFetchCall × List String :=
  match env.serverTime with
  | .error e => (.response 500 (.text e), [], [])
  | .ok servTime =>
    let queryString := rootQueryString servTime symbol
    let url := signedUrl "https://fapi.binance.com" "/fapi/v1/userTrades" queryString
      env.envApiSecret
    match env.httpGet url with
    | .ok data => (.response 200 (.text data), [], [url])
    | .error e => (.response 500 (.text e), [], [url])

/-- `POST /generateUSDMTradeProof` (lines 203-252). The cache read happens
before the `try` block, so a malformed cache blob escapes as an uncaught
exception; on cache hit the entry's `data` is returned with no prover call;
otherwise the proof is requested, a `Failure` becomes a 400 and a success is
cached and returned as 200. -/
def generateUSDMTradeProof {P T : Type} (env : Env P T) (cache : CacheState (ProofData P T))
    (body : TradeProofBody) :
    Outcome P T Unit × CacheState (ProofData P T) × List ZkFetchCall :=
  let cacheKey := generateCacheKey body.api_key body.symbol body.order_id
  match readCache cache cacheKey with
  | .error e => (.uncaught e, cache, [])
  | .ok (some entry) => (.response 200 (.json entry.data), cache, [])
  | .ok none =>
    let timestamp := effectiveServerTime env.serverTime env.now
    let queryString := tradeQueryString timestamp body.symbol body.order_id
    let fetched := generateProof env
      (signedUrl "https://fapi.binance.com" "/fapi/v1/userTrades" queryString body.api_secret)
      tradeMatches body.api_key
    match fetched.1 with
    | .failure e => (.response 400 (.text e), cache, fetched.2)
    | .success d => (.response 200 (.json d), writeCache cache cacheKey d env.now, fetched.2)

/-- Body of `POST /generateAssetProof`. -/
structure AssetProofBody where
  api_key : String
  api_secret : String
  asset : String
deriving DecidableEq, Repr

/-- `POST /generateAssetProof` (lines 254-281): no cache; query string is
`timestamp=` only; otherwise analogous to the trade-proof endpoint. -/
def generateAssetProof {P T : Type} (env : Env P T) (body : AssetProofBody) :
    Outcome P T Unit × List ZkFetchCall :=
  let timestamp := env.now
  let queryString := assetQueryString timestamp
  let fetched := generateProof env
    (signedUrl "https://api.binance.com" "/api/v3/account" queryString body.api_secret)
    (assetMatches body.asset) body.api_key
  match fetched.1 with
  | .failure e => (.response 400 (.text e), fetched.2)
  | .success d => (.response 200 (.json d), fetched.2)

/-- The `zkFetch` invocation in `/debugproxy`: GET on the fixed public page,
no secret options (no header, no matches), no retry parameters. -/
def debugproxyCall : ZkFetchCall :=
  { url := "https://browserleaks.com/ip", method := "GET",
    secretOptions := none, retries := none, delayMs := none }

/-- `POST /debugproxy` (lines 283-325): runs the proof flow on the fixed
public page but `return`s the `Result` object from the handler instead of
calling `res.status(...)`, so no HTTP response is ever produced. -/
def debugproxy {P T : Type} (env : Env P T) :
    Outcome P T (Result (ProofData P T)) × List ZkFetchCall :=
  (.returned (proofFlow env (env.zkFetch debugproxyCall)), [debugproxyCall])


/-! ## Helper lemmas -/

/-- String append cancels on the right. -/
theorem string_append_cancel_right {s t u : String} (h : s ++ u = t ++ u) : s = t := by
  apply String.ext
  have hd : s.data ++ u.data = t.data ++ u.data := by
    have := congrArg String.data h
    simpa [String.data_append] using this
  exact List.append_cancel_right hd

def lowerHexDigits : String := "0123456789abcdef"

def isLowerHexChar (c : Char) : Bool := lowerHexDigits.data.contains c

theorem hexDigit_lowerHex (n : Nat) : isLowerHexChar (hexDigit n) = true :=
  match n with
  | 0 => rfl | 1 => rfl | 2 => rfl | 3 => rfl
  | 4 => rfl | 5 => rfl | 6 => rfl | 7 => rfl
  | 8 => rfl | 9 => rfl | 10 => rfl | 11 => rfl
  | 12 => rfl | 13 => rfl | 14 => rfl | 15 => rfl
  | _ + 16 => rfl

theorem hexChars_length (bs : List Nat) : (hexChars bs).length = 2 * bs.length := by
  induction bs with
  | nil => rfl
  | cons b rest ih => simp [hexChars] at ih ⊢; omega

theorem hexChars_lowerHex (bs : List Nat) : (hexChars bs).all isLowerHexChar = true := by
  induction bs with
  | nil => rfl
  | cons b rest ih =>
      simp [hexChars] at ih ⊢
      exact ⟨hexDigit_lowerHex _, hexDigit_lowerHex _, ih⟩

theorem sha256Bytes_length (msg : List Nat) : (sha256Bytes msg).length = 32 := by
  simp [sha256Bytes, beBytes4]

theorem hmacSha256_length (key msg : List Nat) : (hmacSha256 key msg).length = 32 := by
  simp [hmacSha256, sha256Bytes_length]

theorem hexOfBytes_length (bs : List Nat) : (hexOfBytes bs).length = 2 * bs.length := by
  simp [hexOfBytes, String.length, hexChars_length]

/-! ## Claim C4: cache-key fingerprint -/

/-- C4 counterexample: two differing (apiKey, symbol, orderId) triples whose
concatenations coincide always produce the same cache key, with no hash
collision of MD5 involved (the hash inputs are equal), refuting "any two
differing triples yield differing keys absent a hash collision". -/
theorem generateCacheKey_distinct_triples_collide :
    generateCacheKey "ab" "c" "x" = generateCacheKey "a" "bc" "x" ∧
    (("ab", "c", "x") == ("a", "bc", "x")) = false := by
  constructor
  · have h : ("" ++ "ab" ++ "c" ++ "x" : String) = "" ++ "a" ++ "bc" ++ "x" := by decide
    unfold generateCacheKey
    rw [h]
  · decide

/-- C4 (amended): `generateCacheKey` is deterministic, and two triples yield
equal keys exactly when the MD5 digests of their field concatenations agree:
differing triples with equal concatenation always collide, while triples with
differing concatenations yield differing keys unless MD5 itself collides. -/
theorem generateCacheKey_deterministic_collision_iff
    (a s o a' s' o' : String) :
    generateCacheKey a s o = generateCacheKey a s o ∧
    (generateCacheKey a s o = generateCacheKey a' s' o' ↔
      md5hex ("" ++ a ++ s ++ o) = md5hex ("" ++ a' ++ s' ++ o')) := by
  refine ⟨rfl, ?_, ?_⟩
  · intro h
    exact string_append_cancel_right h
  · intro h
    unfold generateCacheKey
    rw [h]

/-- C4 witness: the collision characterization applied at concrete triples:
equal keys for the colliding pair force equal MD5 digests of the equal
concatenations. -/
theorem generateCacheKey_collision_iff_witness :
    md5hex ("" ++ "ab" ++ "c" ++ "x") = md5hex ("" ++ "a" ++ "bc" ++ "x") :=
  (generateCacheKey_deterministic_collision_iff "ab" "c" "x" "a" "bc" "x").2.mp
    (by
      have h : ("" ++ "ab" ++ "c" ++ "x" : String) = "" ++ "a" ++ "bc" ++ "x" := by decide
      unfold generateCacheKey
      rw [h])

/-! ## Claim C8: the signer -/

/-- C8: `createSignature` is a pure deterministic function — identical inputs
yield identical output — and its output is the hex encoding of the
HMAC-SHA-256 digest of the query string under the secret: a string of exactly
64 characters, all lowercase hexadecimal digits. -/
theorem createSignature_deterministic_lowercase_hex (queryString secret : String) :
    createSignature queryString secret = createSignature queryString secret ∧
    createSignature queryString secret =
      hexOfBytes (hmacSha256 (utf8Bytes secret) (utf8Bytes queryString)) ∧
    (createSignature queryString secret).length = 64 ∧
    (createSignature queryString secret).data.all isLowerHexChar = true := by
  refine ⟨rfl, rfl, ?_, ?_⟩
  · rw [createSignature, hexOfBytes_length, hmacSha256_length]
  · rw [createSignature]
    exact hexChars_lowerHex _

/-! ## Endpoint characterization lemmas -/

/-- The `zkFetch` invocation the trade-proof endpoint performs on a cache
miss. -/
def tradeProofCall {P T : Type} (env : Env P T) (body : TradeProofBody) : ZkFetchCall :=
  proofRequestCall
    (signedUrl "https://fapi.binance.com" "/fapi/v1/userTrades"
      (tradeQueryString (effectiveServerTime env.serverTime env.now) body.symbol body.order_id)
      body.api_secret)
    tradeMatches body.api_key

/-- The `zkFetch` invocation the asset-proof endpoint performs. -/
def assetProofCall {P T : Type} (env : Env P T) (abody : AssetProofBody) : ZkFetchCall :=
  proofRequestCall
    (signedUrl "https://api.binance.com" "/api/v3/account" (assetQueryString env.now)
      abody.api_secret)
    (assetMatches abody.asset) abody.api_key

theorem trade_cacheHit {P T : Type} (env : Env P T) (cache : CacheState (ProofData P T))
    (body : TradeProofBody) (entry : CacheEntry (ProofData P T))
    (h : cache (generateCacheKey body.api_key body.symbol body.order_id) =
      some (.wellFormed entry)) :
    generateUSDMTradeProof env cache body = (.response 200 (.json entry.data), cache, []) := by
  simp only [generateUSDMTradeProof, readCache, h]

theorem trade_cacheMalformed {P T : Type} (env : Env P T) (cache : CacheState (ProofData P T))
    (body : TradeProofBody) (raw : String)
    (h : cache (generateCacheKey body.api_key body.symbol body.order_id) =
      some (.malformed raw)) :
    generateUSDMTradeProof env cache body = (.uncaught (jsonParseError raw), cache, []) := by
  simp only [generateUSDMTradeProof, readCache, h]

theorem trade_cacheMiss {P T : Type} (env : Env P T) (cache : CacheState (ProofData P T))
    (body : TradeProofBody)
    (h : cache (generateCacheKey body.api_key body.symbol body.order_id) = none) :
    generateUSDMTradeProof env cache body =
      (match proofFlow env (env.zkFetch (tradeProofCall env body)) with
       | .failure e => (.response 400 (.text e), cache, [tradeProofCall env body])
       | .success d => (.response 200 (.json d),
           writeCache cache (generateCacheKey body.api_key body.symbol body.order_id) d env.now,
           [tradeProofCall env body])) := by
  simp only [generateUSDMTradeProof, readCache, generateProof, tradeProofCall, h]

theorem assetProof_eq {P T : Type} (env : Env P T) (abody : AssetProofBody) :
    generateAssetProof env abody =
      (match proofFlow env (env.zkFetch (assetProofCall env abody)) with
       | .failure e => (.response 400 (.text e), [assetProofCall env abody])
       | .success d => (.response 200 (.json d), [assetProofCall env abody])) := rfl

theorem readCache_writeCache_same {D : Type} (cache : CacheState D) (k : String) (d : D)
    (t : Nat) : (writeCache cache k d t) k = some (.wellFormed ⟨d, t⟩) := by
  unfold writeCache
  rw [if_pos rfl]

/-! ## Concrete environments and inputs for witnesses and counterexamples -/

/-- A benign concrete environment: the prover resolves with proof `1`,
verification succeeds, and the on-chain transform yields `2`. -/
def okEnv : Env Nat Nat :=
  { zkFetch := fun _ => .ok (some 1),
    verifySignedProof := fun _ => .ok true,
    transformForOnchain := fun _ => .ok 2,
    now := 0,
    serverTime := .error "time fetch failed",
    httpGet := fun _ => .ok "trades",
    envApiKey := "K",
    envApiSecret := "S" }

/-- A prover that throws with exactly the message of the null-proof branch. -/
def throwEnv : Env Nat Nat :=
  { okEnv with zkFetch := fun _ => .error "Failed to generate proof" }

/-- A prover that resolves with no proof (`null`). -/
def nullProofEnv : Env Nat Nat :=
  { okEnv with zkFetch := fun _ => .ok none }

/-- A prover whose behavior depends on whether secret options (the API-key
header) were supplied with the fetch. -/
def secretSensitiveEnv : Env Nat Nat :=
  { okEnv with zkFetch := fun c =>
      match c.secretOptions with
      | none => .ok (some 1)
      | some _ => .error "proxy error" }

def emptyCache : CacheState (ProofData Nat Nat) := fun _ => none

def malformedCache : CacheState (ProofData Nat Nat) := fun _ => some (.malformed "garbage")

def hitCache : CacheState (ProofData Nat Nat) := fun _ => some (.wellFormed ⟨⟨2, 1⟩, 7⟩)

def tradeBody : TradeProofBody := ⟨"key1", "secret1", "BTCUSDT", "123"⟩

/-- Same trade-proof body as `tradeBody` except for the `api_secret`. -/
def tradeBodyAltSecret : TradeProofBody := ⟨"key1", "secret2", "BTCUSDT", "123"⟩

def assetBody : AssetProofBody := ⟨"key1", "secret1", "BTC"⟩

/-! ## Claim C6: the debug endpoint never responds -/

/-- C6 (code bug): for every prover behavior, the `/debugproxy` handler sends
no HTTP response at all — it merely `return`s the `Result` object from the
async callback, which the framework discards — contradicting the specified
200/400/500 response shape shared with the other proof endpoints. -/
theorem debugproxy_never_sends_http_response {P T : Type} (env : Env P T) :
    (debugproxy env).1.isHttpResponse = false ∧
    (debugproxy env).1 = .returned (proofFlow env (env.zkFetch debugproxyCall)) :=
  ⟨rfl, rfl⟩

/-! ## Claim C3: retry parameters per endpoint -/

/-- C3 counterexample: a request to `POST /generateAssetProof` — an endpoint
other than the trade-proof one — makes a `zkFetch` call that passes the retry
parameters `retries=3, delayMs=5000`, refuting "no retry/delay parameters for
any endpoint other than the trade-proof one". -/
theorem assetProof_passes_retry_parameters :
    ((generateAssetProof okEnv assetBody).2).map (fun c => (c.retries, c.delayMs)) =
      [(some 3, some 5000)] := rfl

/-- C3 (amended): retries are introduced only inside the proof requester
(`generateProof`, which always passes `3, 5000`), never at the HTTP facade;
consequently both the trade-proof and the asset-proof endpoints pass
`retries=3, delayMs=5000`, while `/debugproxy` performs exactly one `zkFetch`
with no retry/delay parameters and `GET /` never invokes the proving
capability at all. -/
theorem retry_parameters_per_endpoint {P T : Type} (env : Env P T)
    (cache : CacheState (ProofData P T)) (body : TradeProofBody)
    (abody : AssetProofBody) (symbol : String) :
    ((generateUSDMTradeProof env cache body).2.2).all
        (fun c => c.retries == some 3 && c.delayMs == some 5000) = true ∧
    ((generateAssetProof env abody).2).all
        (fun c => c.retries == some 3 && c.delayMs == some 5000) = true ∧
    (debugproxy env).2 = [debugproxyCall] ∧
    debugproxyCall.retries = none ∧ debugproxyCall.delayMs = none ∧
    (rootTrades env symbol).2.1 = [] := by
  refine ⟨?_, ?_, rfl, rfl, rfl, ?_⟩
  · cases h : cache (generateCacheKey body.api_key body.symbol body.order_id) with
    | none =>
        rw [trade_cacheMiss env cache body h]
        cases proofFlow env (env.zkFetch (tradeProofCall env body)) with
        | success d => simp [tradeProofCall, proofRequestCall]
        | failure e => simp [tradeProofCall, proofRequestCall]
    | some blob =>
        cases blob with
        | wellFormed entry => rw [trade_cacheHit env cache body entry h]; rfl
        | malformed raw => rw [trade_cacheMalformed env cache body raw h]; rfl
  · rw [assetProof_eq env abody]
    cases proofFlow env (env.zkFetch (assetProofCall env abody)) with
    | success d => simp [assetProofCall, proofRequestCall]
    | failure e => simp [assetProofCall, proofRequestCall]
  · unfold rootTrades
    cases env.serverTime with
    | error e => rfl
    | ok t =>
        simp only []
        cases env.httpGet (signedUrl "https://fapi.binance.com" "/fapi/v1/userTrades"
            (rootQueryString t symbol) env.envApiSecret) with
        | ok d => rfl
        | error e => rfl

/-! ## Claim C7: failure reporting -/

/-- C7 counterexample: a present but malformed cache entry makes the
trade-proof handler end in an uncaught exception (the `JSON.parse` throw
happens before the `try` block), so this failure is not returned to the
caller as an HTTP error response, refuting "no failure escapes a handler as
an uncaught exception". -/
theorem malformed_cache_escapes_uncaught :
    (generateUSDMTradeProof okEnv malformedCache tradeBody).1 =
      .uncaught (jsonParseError "garbage") ∧
    (generateUSDMTradeProof okEnv malformedCache tradeBody).1.isHttpResponse = false := by
  have h := trade_cacheMalformed okEnv malformedCache tradeBody "garbage" rfl
  rw [h]
  exact ⟨rfl, rfl⟩

/-- C7 (amended): every failure in the root, trade-proof and asset-proof
handlers is returned to the caller as an HTTP response — except a present but
malformed cache entry, which escapes the trade-proof handler as an uncaught
exception (and `/debugproxy` never sends an HTTP response at all): whenever
the cache blob under the request's key is not malformed, the trade-proof
handler sends an HTTP response, and the asset and root handlers always do. -/
theorem failures_reported_except_malformed_cache {P T : Type} (env : Env P T)
    (cache : CacheState (ProofData P T)) (body : TradeProofBody)
    (abody : AssetProofBody) (symbol : String) :
    (((cache (generateCacheKey body.api_key body.symbol body.order_id)).all
        (fun b => !b.isMalformed)) = true →
      (generateUSDMTradeProof env cache body).1.isHttpResponse = true) ∧
    (generateAssetProof env abody).1.isHttpResponse = true ∧
    (rootTrades env symbol).1.isHttpResponse = true := by
  refine ⟨?_, ?_, ?_⟩
  · intro hgood
    cases h : cache (generateCacheKey body.api_key body.symbol body.order_id) with
    | none =>
        rw [trade_cacheMiss env cache body h]
        cases proofFlow env (env.zkFetch (tradeProofCall env body)) with
        | success d => rfl
        | failure e => rfl
    | some blob =>
        cases blob with
        | wellFormed entry => rw [trade_cacheHit env cache body entry h]; rfl
        | malformed raw =>
            rw [h] at hgood
            simp [CacheBlob.isMalformed] at hgood
  · rw [assetProof_eq env abody]
    cases proofFlow env (env.zkFetch (assetProofCall env abody)) with
    | success d => rfl
    | failure e => rfl
  · unfold rootTrades
    cases env.serverTime with
    | error e => rfl
    | ok t =>
        simp only []
        cases env.httpGet (signedUrl "https://fapi.binance.com" "/fapi/v1/userTrades"
            (rootQueryString t symbol) env.envApiSecret) with
        | ok d => rfl
        | error e => rfl

/-- C7 witness: at a concrete environment with an empty cache the trade-proof
handler, the asset-proof handler and the root handler all answer with an HTTP
response. -/
theorem failures_reported_witness :
    (generateUSDMTradeProof okEnv emptyCache tradeBody).1.isHttpResponse = true ∧
    (generateAssetProof okEnv assetBody).1.isHttpResponse = true ∧
    (rootTrades okEnv "BTCUSDT").1.isHttpResponse = true :=
  ⟨(failures_reported_except_malformed_cache okEnv emptyCache tradeBody assetBody "BTCUSDT").1 rfl,
   (failures_reported_except_malformed_cache okEnv emptyCache tradeBody assetBody "BTCUSDT").2.1,
   (failures_reported_except_malformed_cache okEnv emptyCache tradeBody assetBody "BTCUSDT").2.2⟩

/-! ## Claim C2: error taxonomy of the proof requester -/

/-- C2 counterexample: a prover that throws an error whose message is exactly
"Failed to generate proof" produces `Failure("Failed to generate proof")`
although it did not resolve with no proof (the call threw instead of
resolving), refuting the "if and only if" reading of the taxonomy: the
failure messages do not uniquely identify their causes. -/
theorem failure_message_not_unique_to_null_proof :
    (generateProof throwEnv "u" [] "k").1 = .failure "Failed to generate proof" ∧
    exceptIsOk (throwEnv.zkFetch (proofRequestCall "u" [] "k")) = false :=
  ⟨rfl, rfl⟩

/-- C2 (amended): the forward directions of the taxonomy hold — a prover that
resolves with no proof yields `Failure("Failed to generate proof")`; a
non-null proof failing the independent verification step yields
`Failure("Proof is invalid")`; any thrown error from the prover, the
verification or the transform step yields `Failure` with that stringified
message (so the messages are not exclusive identifiers of their causes);
otherwise the result is `Success` with both the raw and transformed proof;
and the trade-proof endpoint surfaces any `Failure` as a 400 whose body is
the error message. -/
theorem generateProof_error_taxonomy {P T : Type} (env : Env P T) (url : String)
    (rm : List ResponseMatch) (key : String) :
    (∀ e, env.zkFetch (proofRequestCall url rm key) = .error e →
      (generateProof env url rm key).1 = .failure e) ∧
    (env.zkFetch (proofRequestCall url rm key) = .ok none →
      (generateProof env url rm key).1 = .failure "Failed to generate proof") ∧
    (∀ p, env.zkFetch (proofRequestCall url rm key) = .ok (some p) →
      (env.verifySignedProof p = .ok false →
        (generateProof env url rm key).1 = .failure "Proof is invalid") ∧
      (∀ e, env.verifySignedProof p = .error e →
        (generateProof env url rm key).1 = .failure e) ∧
      (env.verifySignedProof p = .ok true →
        (∀ e, env.transformForOnchain p = .error e →
          (generateProof env url rm key).1 = .failure e) ∧
        (∀ t, env.transformForOnchain p = .ok t →
          (generateProof env url rm key).1 = .success ⟨t, p⟩))) ∧
    (∀ (cache : CacheState (ProofData P T)) (body : TradeProofBody) (e : String),
      cache (generateCacheKey body.api_key body.symbol body.order_id) = none →
      (proofFlow env (env.zkFetch (tradeProofCall env body))) = .failure e →
      (generateUSDMTradeProof env cache body).1 = .response 400 (.text e)) := by
  refine ⟨?_, ?_, ?_, ?_⟩
  · intro e h
    simp [generateProof, proofFlow, h]
  · intro h
    simp [generateProof, proofFlow, h]
  · intro p h
    refine ⟨?_, ?_, ?_⟩
    · intro hv
      simp [generateProof, proofFlow, h, hv]
    · intro e hv
      simp [generateProof, proofFlow, h, hv]
    · intro hv
      refine ⟨?_, ?_⟩
      · intro e ht
        simp [generateProof, proofFlow, h, hv, ht]
      · intro t ht
        simp [generateProof, proofFlow, h, hv, ht]
  · intro cache body e hmiss hfail
    rw [trade_cacheMiss env cache body hmiss, hfail]

/-- C2 witness: at a prover that resolves with no proof, `generateProof`
returns `Failure("Failed to generate proof")`, and the trade-proof endpoint
turns a `Failure` of the requester into a 400 whose body is the message. -/
theorem generateProof_error_taxonomy_witness :
    (generateProof nullProofEnv "u" [] "k").1 = .failure "Failed to generate proof" ∧
    (generateUSDMTradeProof nullProofEnv emptyCache tradeBody).1 =
      .response 400 (.text "Failed to generate proof") :=
  ⟨(generateProof_error_taxonomy nullProofEnv "u" [] "k").2.1 rfl,
   (generateProof_error_taxonomy nullProofEnv "u" [] "k").2.2.2 emptyCache tradeBody
     "Failed to generate proof" rfl rfl⟩

/-! ## Claim C1: trade-proof caching and idempotence -/

/-- C1: if a trade-proof request answers 200 with data `d`, then repeating the
request with the identical body against the resulting cache state answers 200
with the same `d`, leaves the cache unchanged and performs no `zkFetch` call;
and a request answering 400 (a proof `Failure`) leaves the cache state
exactly as it was — a failure result is never cached. -/
theorem trade_proof_idempotent_and_failure_not_cached :
    (∀ {P T : Type} (env : Env P T) (cache : CacheState (ProofData P T))
        (body : TradeProofBody) (d : ProofData P T),
      (generateUSDMTradeProof env cache body).1 = .response 200 (.json d) →
      generateUSDMTradeProof env ((generateUSDMTradeProof env cache body).2.1) body =
        (.response 200 (.json d), (generateUSDMTradeProof env cache body).2.1, [])) ∧
    (∀ {P T : Type} (env : Env P T) (cache : CacheState (ProofData P T))
        (body : TradeProofBody) (e : String),
      (generateUSDMTradeProof env cache body).1 = .response 400 (.text e) →
      (generateUSDMTradeProof env cache body).2.1 = cache) := by
  constructor
  · intro P T env cache body d h
    cases hc : cache (generateCacheKey body.api_key body.symbol body.order_id) with
    | none =>
        rw [trade_cacheMiss env cache body hc] at h ⊢
        cases hf : proofFlow env (env.zkFetch (tradeProofCall env body)) with
        | failure e => simp [hf] at h
        | success d0 =>
            simp [hf] at h
            subst h
            show generateUSDMTradeProof env
                (writeCache cache (generateCacheKey body.api_key body.symbol body.order_id) d0
                  env.now) body =
              (.response 200 (.json d0),
               writeCache cache (generateCacheKey body.api_key body.symbol body.order_id) d0
                 env.now, [])
            exact trade_cacheHit env _ body ⟨d0, env.now⟩
              (readCache_writeCache_same cache
                (generateCacheKey body.api_key body.symbol body.order_id) d0 env.now)
    | some blob =>
        cases blob with
        | wellFormed entry =>
            rw [trade_cacheHit env cache body entry hc] at h ⊢
            have hd : entry.data = d := by simpa using h
            show generateUSDMTradeProof env cache body = (.response 200 (.json d), cache, [])
            rw [trade_cacheHit env cache body entry hc, hd]
        | malformed raw =>
            rw [trade_cacheMalformed env cache body raw hc] at h
            exact absurd h (by simp)
  · intro P T env cache body e h
    cases hc : cache (generateCacheKey body.api_key body.symbol body.order_id) with
    | none =>
        rw [trade_cacheMiss env cache body hc] at h ⊢
        cases hf : proofFlow env (env.zkFetch (tradeProofCall env body)) with
        | failure e0 => rfl
        | success d0 => simp [hf] at h
    | some blob =>
        cases blob with
        | wellFormed entry => rw [trade_cacheHit env cache body entry hc]
        | malformed raw => rw [trade_cacheMalformed env cache body raw hc]

/-- C1 witness: a concrete first request on an empty cache succeeds with data
`⟨2, 1⟩`; replaying the identical body against the produced cache state
returns 200 with the same data, the same cache state, and an empty `zkFetch`
trace. -/
theorem trade_proof_idempotent_witness :
    generateUSDMTradeProof okEnv ((generateUSDMTradeProof okEnv emptyCache tradeBody).2.1)
        tradeBody =
      (.response 200 (.json ⟨2, 1⟩),
       (generateUSDMTradeProof okEnv emptyCache tradeBody).2.1, []) :=
  trade_proof_idempotent_and_failure_not_cached.1 okEnv emptyCache tradeBody ⟨2, 1⟩ rfl

/-! ## Claim C9: cache key ignores the api_secret -/

/-- C9: the trade-proof cache key depends only on (api_key, symbol, order_id)
and not on api_secret: two request bodies agreeing on those three fields get
the same cache key, and once a well-formed entry is cached under that key the
endpoint answers 200 with the cached data for either body — in particular for
any api_secret — without any prover call, the secret never being checked. -/
theorem cache_key_ignores_api_secret {P T : Type} (env : Env P T)
    (cache : CacheState (ProofData P T)) (b1 b2 : TradeProofBody)
    (hk : b1.api_key = b2.api_key) (hs : b1.symbol = b2.symbol)
    (ho : b1.order_id = b2.order_id) :
    generateCacheKey b1.api_key b1.symbol b1.order_id =
      generateCacheKey b2.api_key b2.symbol b2.order_id ∧
    (∀ entry, cache (generateCacheKey b1.api_key b1.symbol b1.order_id) =
        some (.wellFormed entry) →
      generateUSDMTradeProof env cache b1 = (.response 200 (.json entry.data), cache, []) ∧
      generateUSDMTradeProof env cache b2 = (.response 200 (.json entry.data), cache, [])) := by
  constructor
  · rw [hk, hs, ho]
  · intro entry h
    refine ⟨trade_cacheHit env cache b1 entry h, trade_cacheHit env cache b2 entry ?_⟩
    rw [← hk, ← hs, ← ho]
    exact h

/-- C9 witness: with a concrete cached entry, two bodies identical except for
the api_secret both hit the cache and receive the same 200 response with no
prover call. -/
theorem cache_key_ignores_api_secret_witness :
    generateUSDMTradeProof okEnv hitCache tradeBody =
      (.response 200 (.json ⟨2, 1⟩), hitCache, []) ∧
    generateUSDMTradeProof okEnv hitCache tradeBodyAltSecret =
      (.response 200 (.json ⟨2, 1⟩), hitCache, []) :=
  (cache_key_ignores_api_secret okEnv hitCache tradeBody tradeBodyAltSecret rfl rfl rfl).2
    ⟨⟨2, 1⟩, 7⟩ rfl

/-! ## Claim C10: the debug flow versus generateProofWithoutContext -/

/-- C10 counterexample: the `/debugproxy` fetch passes no secret options (no
API-key header), while `generateProofWithoutContext` passes the header; a
prover whose behavior depends on the secret-options argument drives the two
computations to different results, refuting "the same result for every prover
behavior". -/
theorem debugproxy_differs_from_noContext_flow :
    (debugproxy secretSensitiveEnv).1 = .returned (.success ⟨2, 1⟩) ∧
    (generateProofWithoutContext secretSensitiveEnv "https://browserleaks.com/ip" "k").1 =
      .failure "proxy error" :=
  ⟨rfl, rfl⟩

/-- C10 (amended): the `/debugproxy` computation is the
`generateProofWithoutContext` flow applied to the fixed public-page URL —
same null-check, signature verification and on-chain transform, no
response-match rules and no retry parameters — except that its fetch call
passes no secret options at all (no API-key header); whenever the prover does
not distinguish the two fetch calls, the results coincide exactly. -/
theorem debugproxy_is_noContext_flow_up_to_secret_options {P T : Type} (env : Env P T)
    (apiKey : String) :
    ((debugproxy env).2 = [debugproxyCall] ∧ debugproxyCall.secretOptions = none ∧
      (noContextCall "https://browserleaks.com/ip" apiKey).retries = none ∧
      (noContextCall "https://browserleaks.com/ip" apiKey).secretOptions =
        some ⟨[("X-MBX-APIKEY", apiKey)], none⟩) ∧
    (env.zkFetch debugproxyCall = env.zkFetch (noContextCall "https://browserleaks.com/ip" apiKey) →
      (debugproxy env).1 =
        .returned ((generateProofWithoutContext env "https://browserleaks.com/ip" apiKey).1)) := by
  refine ⟨⟨rfl, rfl, rfl, rfl⟩, ?_⟩
  intro h
  show Outcome.returned (proofFlow env (env.zkFetch debugproxyCall)) =
    .returned (proofFlow env (env.zkFetch (noContextCall "https://browserleaks.com/ip" apiKey)))
  rw [h]

/-- C10 witness: with a prover that ignores its arguments, the debug handler
returns exactly the result of `generateProofWithoutContext` on the fixed
public-page URL. -/
theorem debugproxy_is_noContext_flow_witness :
    (debugproxy okEnv).1 =
      .returned ((generateProofWithoutContext okEnv "https://browserleaks.com/ip" "K").1) :=
  (debugproxy_is_noContext_flow_up_to_secret_options okEnv "K").2 rfl

/-! ## Claim C5: signed query-string structure -/

/-- C5 counterexample: the asset-proof endpoint's signed query string is
`timestamp=` alone — it does not end with (indeed does not contain) the
`recvWindow` field, refuting "timestamp first, then the endpoint-specific
fields, then recvWindow" for every signed exchange request; the trade-proof
endpoint's query string, by contrast, does end with it. -/
theorem asset_query_lacks_recvWindow :
    assetQueryString 5 = "timestamp=5" ∧
    (("&recvWindow=60000".data).isSuffixOf (assetQueryString 5).data) = false ∧
    (("&recvWindow=60000".data).isSuffixOf (tradeQueryString 5 "BTCUSDT" "123").data) = true := by
  refine ⟨by decide, by decide, by decide⟩

/-- C5 (amended): every signed exchange request is built over a query string
with timestamp first; the root and trade-proof query strings then carry the
endpoint-specific fields and end with `recvWindow=60000`, while the
asset-proof query string is the timestamp alone (no recvWindow); and in every
endpoint the URL sent out is exactly base?queryString&signature=sig where sig
is the keyed hash of exactly that query string under the caller-supplied
secret — the signature is appended after the signed string, never part of
it. -/
theorem signed_query_structure {P T : Type} (env : Env P T)
    (cache : CacheState (ProofData P T)) (body : TradeProofBody)
    (abody : AssetProofBody) (symbol : String) (ts : Nat) :
    tradeQueryString ts body.symbol body.order_id =
      "timestamp=" ++ toString ts ++
        ("&symbol=" ++ body.symbol ++ "&orderId=" ++ body.order_id) ++ "&recvWindow=60000" ∧
    rootQueryString ts symbol =
      "timestamp=" ++ toString ts ++ ("&symbol=" ++ symbol) ++ "&recvWindow=60000" ∧
    assetQueryString ts = "timestamp=" ++ toString ts ∧
    (∀ base ep qs sec, signedUrl base ep qs sec =
      base ++ ep ++ "?" ++ qs ++ "&signature=" ++ createSignature qs sec) ∧
    ((generateUSDMTradeProof env cache body).2.2).all (fun c =>
      c.url == signedUrl "https://fapi.binance.com" "/fapi/v1/userTrades"
        (tradeQueryString (effectiveServerTime env.serverTime env.now) body.symbol body.order_id)
        body.api_secret) = true ∧
    ((generateAssetProof env abody).2).all (fun c =>
      c.url == signedUrl "https://api.binance.com" "/api/v3/account"
        (assetQueryString env.now) abody.api_secret) = true ∧
    ((rootTrades env symbol).2.2).all (fun u =>
      u == signedUrl "https://fapi.binance.com" "/fapi/v1/userTrades"
        (rootQueryString (effectiveServerTime env.serverTime env.now) symbol)
        env.envApiSecret) = true := by
  refine ⟨?_, ?_, rfl, fun base ep qs sec => rfl, ?_, ?_, ?_⟩
  · simp [tradeQueryString, String.append_assoc]
  · simp [rootQueryString, String.append_assoc]
  · cases h : cache (generateCacheKey body.api_key body.symbol body.order_id) with
    | none =>
        rw [trade_cacheMiss env cache body h]
        cases proofFlow env (env.zkFetch (tradeProofCall env body)) with
        | success d => simp [tradeProofCall, proofRequestCall]
        | failure e => simp [tradeProofCall, proofRequestCall]
    | some blob =>
        cases blob with
        | wellFormed entry => rw [trade_cacheHit env cache body entry h]; rfl
        | malformed raw => rw [trade_cacheMalformed env cache body raw h]; rfl
  · rw [assetProof_eq env abody]
    cases proofFlow env (env.zkFetch (assetProofCall env abody)) with
    | success d => simp [assetProofCall, proofRequestCall]
    | failure e => simp [assetProofCall, proofRequestCall]
  · unfold rootTrades
    cases henv : env.serverTime with
    | error e => rfl
    | ok t =>
        simp only []
        cases env.httpGet (signedUrl "https://fapi.binance.com" "/fapi/v1/userTrades"
            (rootQueryString t symbol) env.envApiSecret) with
        | ok d => simp [effectiveServerTime, henv]
        | error e => simp [effectiveServerTime, henv]

end MarkSense
